import Mathlib

/-!
Shallow embedding of the departure-selection core of the e42-rain-smartride
repository (`src/ride_weather_advisor.py`, class `RideWeatherAdvisor`).

Numeric values (risk, discomfort, thresholds, weather observations) are
modelled as rationals; timestamps as integers (minutes).  Python's
`round(x, 3)` rounds half to even; `sorted` is a stable sort, modelled here
by `List.insertionSort` with a non-strict (total, transitive) order, which
agrees with any stable sort; `max(xs, key=k)` / `min(xs, key=k)` return the
first element attaining the extreme key, modelled by a left fold.
-/

namespace RideWeather

/-- Run mode of the advisor: `self.MODE` is "morning" or "evening". -/
inductive Mode : Type
  | morning
  | evening
deriving DecidableEq, Repr

/-- A candidate departure slot as built in `run_forecast`:
`{"departure": dt, "risk": ..., "discomfort": ..., "refused": ...}`. -/
structure Candidate : Type where
  departure : ℤ
  risk : ℚ
  discomfort : ℚ
  refused : Bool
deriving DecidableEq, Repr

/-- Combined score `c["risk"] + c["discomfort"]` used throughout the selector. -/
def combinedScore (c : Candidate) : ℚ :=
  c.risk + c.discomfort

/-- Round a rational to the nearest integer, ties to even: the semantics of
Python's built-in `round` on an exact value. -/
def roundHalfToEven (x : ℚ) : ℤ :=
  let f := ⌊x⌋
  if x - f < 1/2 then f
  else if 1/2 < x - f then f + 1
  else if f % 2 = 0 then f else f + 1

/-- Python's `round(x, 3)`. -/
def round3 (x : ℚ) : ℚ :=
  (roundHalfToEven (x * 1000) : ℚ) / 1000

/-- Sort key from `select_best_departure`:
`(round(c["risk"] + c["discomfort"], 3), c["departure"])`. -/
def sortKey (c : Candidate) : ℚ × ℤ :=
  (round3 (combinedScore c), c.departure)

/-- Non-strict lexicographic order on sort keys. -/
def keyLE (p q : ℚ × ℤ) : Prop :=
  p.1 < q.1 ∨ (p.1 = q.1 ∧ p.2 ≤ q.2)

instance : DecidableRel keyLE := fun p q =>
  inferInstanceAs (Decidable (p.1 < q.1 ∨ (p.1 = q.1 ∧ p.2 ≤ q.2)))

/-- Comparison used by `sorted(candidates, key=..., reverse=(MODE == "morning"))`:
ascending keys for evening, descending keys for morning. -/
def sortRel (mode : Mode) (a b : Candidate) : Prop :=
  match mode with
  | Mode.evening => keyLE (sortKey a) (sortKey b)
  | Mode.morning => keyLE (sortKey b) (sortKey a)

instance (mode : Mode) : DecidableRel (sortRel mode) :=
  match mode with
  | Mode.evening => fun a b => inferInstanceAs (Decidable (keyLE (sortKey a) (sortKey b)))
  | Mode.morning => fun a b => inferInstanceAs (Decidable (keyLE (sortKey b) (sortKey a)))

theorem keyLE_total (p q : ℚ × ℤ) : keyLE p q ∨ keyLE q p := by
  unfold keyLE
  rcases lt_trichotomy p.1 q.1 with h | h | h
  · exact Or.inl (Or.inl h)
  · rcases le_total p.2 q.2 with h2 | h2
    · exact Or.inl (Or.inr ⟨h, h2⟩)
    · exact Or.inr (Or.inr ⟨h.symm, h2⟩)
  · exact Or.inr (Or.inl h)

theorem keyLE_trans {p q r : ℚ × ℤ} (h1 : keyLE p q) (h2 : keyLE q r) : keyLE p r := by
  unfold keyLE at *
  rcases h1 with h1 | ⟨h1e, h1le⟩
  · rcases h2 with h2 | ⟨h2e, _⟩
    · exact Or.inl (h1.trans h2)
    · exact Or.inl (h2e ▸ h1)
  · rcases h2 with h2 | ⟨h2e, h2le⟩
    · exact Or.inl (h1e ▸ h2)
    · exact Or.inr ⟨h1e.trans h2e, h1le.trans h2le⟩

instance (mode : Mode) : IsTotal Candidate (sortRel mode) := by
  constructor
  intro a b
  cases mode
  · exact keyLE_total (sortKey b) (sortKey a)
  · exact keyLE_total (sortKey a) (sortKey b)

instance (mode : Mode) : IsTrans Candidate (sortRel mode) := by
  constructor
  intro a b c hab hbc
  cases mode
  · exact keyLE_trans hbc hab
  · exact keyLE_trans hab hbc

/-- The stable sort in `select_best_departure`
(`sorted(candidates, key=..., reverse=(MODE == "morning"))`). -/
def sortedCandidates (mode : Mode) (candidates : List Candidate) : List Candidate :=
  List.insertionSort (sortRel mode) candidates

/-- The tolerance band `close_candidates`: every sorted candidate whose
combined score differs from the top candidate's combined score
(`best_score`, un-rounded) by at most `RISK_SCORE_TOLERANCE`. -/
def closeCandidates (mode : Mode) (tol : ℚ) (candidates : List Candidate) : List Candidate :=
  match sortedCandidates mode candidates with
  | [] => []
  | best :: rest =>
      (best :: rest).filter fun c =>
        decide (|combinedScore c - combinedScore best| ≤ tol)

/-- Python's `max(xs, key=k)`: first element with the maximal key
(raises on an empty list, modelled by `none`). -/
def pyMaxBy {α β : Type} [LinearOrder β] (k : α → β) : List α → Option α
  | [] => none
  | x :: xs => some (xs.foldl (fun b c => if k b < k c then c else b) x)

/-- Python's `min(xs, key=k)`: first element with the minimal key
(raises on an empty list, modelled by `none`). -/
def pyMinBy {α β : Type} [LinearOrder β] (k : α → β) : List α → Option α
  | [] => none
  | x :: xs => some (xs.foldl (fun b c => if k c < k b then c else b) x)

/-- `select_best_departure` (lines 106-128): returns `None` on an empty
candidate list; otherwise sorts by `(round(risk+discomfort, 3), departure)`
(descending for morning), keeps the band of candidates within
`RISK_SCORE_TOLERANCE` of the top candidate's combined score, and picks the
latest departure in the band for morning, the earliest for evening. -/
def selectBestDeparture (mode : Mode) (tol : ℚ) (candidates : List Candidate) :
    Option Candidate :=
  match mode with
  | Mode.morning => pyMaxBy (fun c => c.departure) (closeCandidates mode tol candidates)
  | Mode.evening => pyMinBy (fun c => c.departure) (closeCandidates mode tol candidates)

/-- Configuration thresholds of `RideWeatherAdvisor.__init__`. -/
structure Params : Type where
  maxAcceptableRain : ℚ
  maxAcceptableWindSpeed : ℚ
  maxToleratedWindWithGoodDir : ℚ
  minAcceptableTemp : ℚ
  riskScoreTolerance : ℚ
  riskScoreThreshold : ℚ
  bannedWmoCodes : List ℕ
deriving DecidableEq, Repr

/-- Default `BANNED_WMO_CODES` set from `__init__`. -/
def defaultBannedWmoCodes : List ℕ :=
  [45, 48, 55, 56, 57, 65, 66, 67, 75, 77, 81, 82, 86, 95, 96, 99]

/-- Default constructor arguments of `RideWeatherAdvisor.__init__`. -/
def defaultParams : Params :=
  { maxAcceptableRain := 0.2
    maxAcceptableWindSpeed := 30
    maxToleratedWindWithGoodDir := 35
    minAcceptableTemp := 6
    riskScoreTolerance := 0.15
    riskScoreThreshold := 0.6
    bannedWmoCodes := defaultBannedWmoCodes }

/-- Wind-direction acceptability from `compute_risk`:
`dir_min is None or dir_max is None or dir_min <= wind_direction_10m <= dir_max`. -/
def windDirectionOk (dirMin dirMax : Option ℚ) (windDir : ℚ) : Bool :=
  match dirMin, dirMax with
  | some lo, some hi => decide (lo ≤ windDir) && decide (windDir ≤ hi)
  | _, _ => true

/-- `compute_risk` (lines 82-97): hard veto 1.0 on banned weather codes,
otherwise additive 0.6 penalties for wind (direction-gated), rain and cold,
capped at 1.0. -/
def computeRisk (p : Params) (windSpeed precip temp : ℚ) (weatherCode : ℕ)
    (windDir : ℚ) (dirMin dirMax : Option ℚ) : ℚ :=
  if weatherCode ∈ p.bannedWmoCodes then 1
  else
    let dirOk := windDirectionOk dirMin dirMax windDir
    let windPenalty : ℚ :=
      if windSpeed > p.maxAcceptableWindSpeed ∧
          (dirOk = false ∨ windSpeed > p.maxToleratedWindWithGoodDir) then 0.6 else 0
    let rainPenalty : ℚ := if precip > p.maxAcceptableRain then 0.6 else 0
    let coldPenalty : ℚ := if temp < p.minAcceptableTemp then 0.6 else 0
    min (windPenalty + rainPenalty + coldPenalty) 1

/-- Per-gear ideal temperature `{0: 22, 1: 14, 2: 10}` from `compute_discomfort`. -/
def idealTemp : Fin 3 → ℚ
  | 0 => 22
  | 1 => 14
  | 2 => 10

/-- `compute_discomfort` (lines 99-104). -/
def computeDiscomfort (temp precip windSpeed : ℚ) (gearLevel : Fin 3) : ℚ :=
  let tempPenalty := |temp - idealTemp gearLevel| / 20
  let rainPenalty := min (precip / 1.5) 1
  let windPenalty := max 0 ((windSpeed - 15) / 30)
  min (tempPenalty + rainPenalty + windPenalty) 1

end RideWeather

namespace RideWeather

theorem sortedCandidates_perm (mode : Mode) (cands : List Candidate) :
    (sortedCandidates mode cands).Perm cands :=
  List.perm_insertionSort _ _

theorem mem_sortedCandidates {mode : Mode} {cands : List Candidate} {c : Candidate} :
    c ∈ sortedCandidates mode cands ↔ c ∈ cands :=
  (sortedCandidates_perm mode cands).mem_iff

theorem sortedCandidates_sorted (mode : Mode) (cands : List Candidate) :
    List.Sorted (sortRel mode) (sortedCandidates mode cands) :=
  List.sorted_insertionSort _ _

theorem keyLE_refl (p : ℚ × ℤ) : keyLE p p :=
  Or.inr ⟨rfl, le_refl _⟩

theorem sortRel_head {mode : Mode} {cands : List Candidate} {hd : Candidate}
    {tl : List Candidate} (h : sortedCandidates mode cands = hd :: tl) :
    ∀ c ∈ cands, sortRel mode hd c := by
  intro c hc
  have hmem : c ∈ hd :: tl := h ▸ mem_sortedCandidates.mpr hc
  rcases List.mem_cons.mp hmem with rfl | hmem
  · cases mode <;> exact keyLE_refl _
  · have hs := sortedCandidates_sorted mode cands
    rw [h] at hs
    exact List.rel_of_sorted_cons hs c hmem

theorem foldl_pick_mem {α : Type} (step : α → α → α)
    (hstep : ∀ b c, step b c = b ∨ step b c = c) :
    ∀ (xs : List α) (x : α), xs.foldl step x ∈ x :: xs := by
  intro xs
  induction xs with
  | nil => intro x; simp
  | cons c cs ih =>
    intro x
    rw [List.foldl_cons]
    rcases List.mem_cons.mp (ih (step x c)) with h | h
    · rw [h]
      rcases hstep x c with he | he <;> rw [he] <;> simp
    · simp [h]

theorem foldl_min_le {α β : Type} [LinearOrder β] (k : α → β) :
    ∀ (xs : List α) (x : α), ∀ c ∈ x :: xs,
      k (xs.foldl (fun b d => if k d < k b then d else b) x) ≤ k c := by
  intro xs
  induction xs with
  | nil =>
    intro x c hc
    rw [List.mem_singleton] at hc
    subst hc
    simp
  | cons c0 cs ih =>
    intro x c hc
    rw [List.foldl_cons]
    have hstep : k (if k c0 < k x then c0 else x) ≤ k x ∧
        k (if k c0 < k x then c0 else x) ≤ k c0 := by
      split
      · exact ⟨le_of_lt (by assumption), le_refl _⟩
      · exact ⟨le_refl _, le_of_not_lt (by assumption)⟩
    rcases List.mem_cons.mp hc with rfl | hc2
    · exact le_trans (ih _ _ (List.mem_cons_self _ _)) hstep.1
    rcases List.mem_cons.mp hc2 with rfl | hc3
    · exact le_trans (ih _ _ (List.mem_cons_self _ _)) hstep.2
    · exact ih _ c (List.mem_cons_of_mem _ hc3)

theorem foldl_max_ge {α β : Type} [LinearOrder β] (k : α → β) :
    ∀ (xs : List α) (x : α), ∀ c ∈ x :: xs,
      k c ≤ k (xs.foldl (fun b d => if k b < k d then d else b) x) := by
  intro xs
  induction xs with
  | nil =>
    intro x c hc
    rw [List.mem_singleton] at hc
    subst hc
    simp
  | cons c0 cs ih =>
    intro x c hc
    rw [List.foldl_cons]
    have hstep : k x ≤ k (if k x < k c0 then c0 else x) ∧
        k c0 ≤ k (if k x < k c0 then c0 else x) := by
      split
      · exact ⟨le_of_lt (by assumption), le_refl _⟩
      · exact ⟨le_refl _, le_of_not_lt (by assumption)⟩
    rcases List.mem_cons.mp hc with rfl | hc2
    · exact le_trans hstep.1 (ih _ _ (List.mem_cons_self _ _))
    rcases List.mem_cons.mp hc2 with rfl | hc3
    · exact le_trans hstep.2 (ih _ _ (List.mem_cons_self _ _))
    · exact ih _ c (List.mem_cons_of_mem _ hc3)

theorem pyMinBy_spec {α β : Type} [LinearOrder β] (k : α → β) {l : List α} {m : α}
    (h : pyMinBy k l = some m) : m ∈ l ∧ ∀ c ∈ l, k m ≤ k c := by
  cases l with
  | nil => simp [pyMinBy] at h
  | cons x xs =>
    have hm : xs.foldl (fun b d => if k d < k b then d else b) x = m := by
      simpa [pyMinBy] using h
    constructor
    · exact hm ▸ foldl_pick_mem _ (fun b d => by split <;> simp) xs x
    · exact fun c hc => hm ▸ foldl_min_le k xs x c hc

theorem pyMaxBy_spec {α β : Type} [LinearOrder β] (k : α → β) {l : List α} {m : α}
    (h : pyMaxBy k l = some m) : m ∈ l ∧ ∀ c ∈ l, k c ≤ k m := by
  cases l with
  | nil => simp [pyMaxBy] at h
  | cons x xs =>
    have hm : xs.foldl (fun b d => if k b < k d then d else b) x = m := by
      simpa [pyMaxBy] using h
    constructor
    · exact hm ▸ foldl_pick_mem _ (fun b d => by split <;> simp) xs x
    · exact fun c hc => hm ▸ foldl_max_ge k xs x c hc

theorem pyMinBy_isSome {α β : Type} [LinearOrder β] (k : α → β) {l : List α}
    (h : l ≠ []) : ∃ m, pyMinBy k l = some m := by
  cases l with
  | nil => exact absurd rfl h
  | cons x xs => exact ⟨_, rfl⟩

theorem pyMaxBy_isSome {α β : Type} [LinearOrder β] (k : α → β) {l : List α}
    (h : l ≠ []) : ∃ m, pyMaxBy k l = some m := by
  cases l with
  | nil => exact absurd rfl h
  | cons x xs => exact ⟨_, rfl⟩

theorem closeCandidates_eq {mode : Mode} {tol : ℚ} {cands : List Candidate}
    {hd : Candidate} {tl : List Candidate} (h : sortedCandidates mode cands = hd :: tl) :
    closeCandidates mode tol cands =
      (hd :: tl).filter fun c => decide (|combinedScore c - combinedScore hd| ≤ tol) := by
  unfold closeCandidates
  rw [h]

theorem mem_closeCandidates {mode : Mode} {tol : ℚ} {cands : List Candidate}
    {hd : Candidate} {tl : List Candidate} {c : Candidate}
    (h : sortedCandidates mode cands = hd :: tl) :
    c ∈ closeCandidates mode tol cands ↔
      c ∈ cands ∧ |combinedScore c - combinedScore hd| ≤ tol := by
  rw [closeCandidates_eq h, List.mem_filter, ← h, mem_sortedCandidates, decide_eq_true_eq]

theorem selectBest_some_sorted_ne {mode : Mode} {tol : ℚ} {cands : List Candidate}
    {r : Candidate} (h : selectBestDeparture mode tol cands = some r) :
    ∃ hd tl, sortedCandidates mode cands = hd :: tl := by
  cases hs : sortedCandidates mode cands with
  | cons hd tl => exact ⟨hd, tl, rfl⟩
  | nil =>
    have hclose : closeCandidates mode tol cands = [] := by
      unfold closeCandidates
      rw [hs]
    cases mode <;> simp [selectBestDeparture, hclose, pyMaxBy, pyMinBy] at h

theorem selectBest_mem_close {mode : Mode} {tol : ℚ} {cands : List Candidate}
    {r : Candidate} (h : selectBestDeparture mode tol cands = some r) :
    r ∈ closeCandidates mode tol cands := by
  cases mode
  · have h2 : pyMaxBy (fun c => c.departure)
        (closeCandidates Mode.morning tol cands) = some r := h
    exact (pyMaxBy_spec (fun c => c.departure) h2).1
  · have h2 : pyMinBy (fun c => c.departure)
        (closeCandidates Mode.evening tol cands) = some r := h
    exact (pyMinBy_spec (fun c => c.departure) h2).1

end RideWeather

namespace RideWeather

/-- One waypoint of `get_coords()`: a name and an optional acceptable
wind-direction arc (`dir_min`, `dir_max`).  The route is the ordered list
of waypoints; latitude/longitude only feed the external fetch and are
omitted. -/
structure Waypoint : Type where
  name : String
  dirMin : Option ℚ
  dirMax : Option ℚ
deriving DecidableEq, Repr

/-- One weather observation `w = data[pt][t]` of the forecast table. -/
structure Obs : Type where
  windSpeed : ℚ
  precipitation : ℚ
  temperature : ℚ
  weatherCode : ℕ
  windDirection : ℚ
deriving DecidableEq, Repr

/-- The forecast table `data`: per waypoint name and timestamp, an optional
observation (`none` models a `KeyError` on lookup). -/
def Forecast : Type :=
  String → ℤ → Option Obs

/-- The sequential forecast lookups `w = data[pt][t]` over the enumerated
waypoints (`segments`), arrival at waypoint `i` being `dt + 15 * i`; the
first missing observation raises `KeyError`, i.e. aborts with `none`. -/
def lookupObs (data : Forecast) (dt : ℤ) :
    List (ℕ × Waypoint) → Option (List (Waypoint × Obs))
  | [] => some []
  | iw :: rest => do
      let o ← data iw.2.name (dt + 15 * (iw.1 : ℤ))
      let others ← lookupObs data dt rest
      pure ((iw.2, o) :: others)

/-- The body of the departure loop in `run_forecast` (lines 170-189) for one
departure timestamp `dt`: if every lookup succeeds the candidate aggregates
risk and discomfort with `max` and sets `refused`; a single missing
observation (`KeyError`) yields no candidate at all. -/
def buildCandidate (p : Params) (coords : List Waypoint) (data : Forecast)
    (gearLevel : Fin 3) (dt : ℤ) : Option Candidate := do
  let obss ← lookupObs data dt coords.enum
  let risks := obss.map fun wo =>
    computeRisk p wo.2.windSpeed wo.2.precipitation wo.2.temperature
      wo.2.weatherCode wo.2.windDirection wo.1.dirMin wo.1.dirMax
  let discomforts := obss.map fun wo =>
    computeDiscomfort wo.2.temperature wo.2.precipitation wo.2.windSpeed gearLevel
  let r ← risks.max?
  let d ← discomforts.max?
  pure { departure := dt, risk := r, discomfort := d,
         refused := decide (r > p.riskScoreThreshold) ||
                    decide (d > p.riskScoreThreshold) }

/-- The candidate list accumulated for one gear level in `run_forecast`:
departure timestamps whose lookups fail are skipped (`except KeyError:
continue`), all others contribute one candidate. -/
def candidatesForGear (p : Params) (coords : List Waypoint) (data : Forecast)
    (gearLevel : Fin 3) (departures : List ℤ) : List Candidate :=
  departures.filterMap (buildCandidate p coords data gearLevel)

/-- One entry of `options` in `run_forecast`: appended only when
`select_best_departure` returned a candidate, so `best` is always present. -/
structure GearOption : Type where
  level : Fin 3
  candidates : List Candidate
  best : Candidate
deriving DecidableEq, Repr

/-- The `options` list of `run_forecast` (lines 166-193). -/
def runOptions (mode : Mode) (p : Params) (coords : List Waypoint) (data : Forecast)
    (gearLevels : List (Fin 3)) (departures : List ℤ) : List GearOption :=
  gearLevels.filterMap fun g =>
    (selectBestDeparture mode p.riskScoreTolerance
        (candidatesForGear p coords data g departures)).map fun b =>
      { level := g, candidates := candidatesForGear p coords data g departures, best := b }

/-- Rounding `now` up to the 15-minute sampling grid (lines 141-143):
`if now.minute % 15: now += timedelta(minutes=15 - now.minute % 15)`. -/
def roundUpToGrid (now : ℤ) : ℤ :=
  if now % 15 = 0 then now else now + (15 - now % 15)

/-- Evaluation window bounds (lines 145-156), in minutes.  Morning mode is
anchored at `MORNING_LATEST_DEPARTURE` with `MORNING_MAX_EARLY_DELTA_MIN`
slack before it; evening mode at `EVENING_FIRST_DEPARTURE` with
`EVENING_MAX_LATE_DELTA_MIN` slack after it; both intersect with
`[gridNow, ∞)` through `start_time = max(now, earliest_departure)`. -/
def windowBounds (mode : Mode) (gridNow anchor delta : ℤ) : ℤ × ℤ :=
  match mode with
  | Mode.morning => (max gridNow (anchor - delta), anchor)
  | Mode.evening => (max gridNow anchor, anchor + delta)

/-- The `departure_times` loop (lines 160-164): `t = start; while t <= end:
append t; t += 15 minutes`. -/
def departureTimes (start stop : ℤ) : List ℤ :=
  if h : start ≤ stop then start :: departureTimes (start + 15) stop else []
termination_by (stop + 15 - start).toNat
decreasing_by omega

/-- The `options` computed by one `run_forecast` call, given the grid-rounded
current time and the window anchor/slack configuration. -/
def forecastOptions (mode : Mode) (p : Params) (coords : List Waypoint)
    (data : Forecast) (gearLevels : List (Fin 3)) (now anchor delta : ℤ) :
    List GearOption :=
  let bounds := windowBounds mode (roundUpToGrid now) anchor delta
  runOptions mode p coords data gearLevels (departureTimes bounds.1 bounds.2)

/-- One element of the `combined` list in `combine_forecasts_same_gear`
(lines 212-219). -/
structure RoundTrip : Type where
  level : Fin 3
  morning : Candidate
  evening : Candidate
  totalRisk : ℚ
  totalDiscomfort : ℚ
  refused : Bool
deriving DecidableEq, Repr

/-- Pair construction of `combine_forecasts_same_gear`: totals are the sums
of the two legs, refusal is the disjunction of the two legs. -/
def mkRoundTrip (m e : GearOption) : RoundTrip :=
  { level := m.level
    morning := m.best
    evening := e.best
    totalRisk := m.best.risk + e.best.risk
    totalDiscomfort := m.best.discomfort + e.best.discomfort
    refused := m.best.refused || e.best.refused }

/-- The `combined` list (lines 207-219): for each morning option, the first
evening option with the same gear level (`next(...)`), if any.  Every
option's `best` is present by construction of `options`, so the Python
truthiness checks on `best` always pass. -/
def combinedPairs (morningOpts eveningOpts : List GearOption) : List RoundTrip :=
  morningOpts.filterMap fun m =>
    (eveningOpts.find? fun e => decide (e.level = m.level)).map (mkRoundTrip m)

/-- `combine_forecasts_same_gear` (lines 201-226): `None` if either leg has
no options or no gear level appears in both; otherwise the pair minimizing
`round(total_risk + total_discomfort, 3)` (first such pair on a tie). -/
def combineForecastsSameGear (morningOpts eveningOpts : List GearOption) :
    Option RoundTrip :=
  if morningOpts.isEmpty || eveningOpts.isEmpty then none
  else pyMinBy (fun o => round3 (o.totalRisk + o.totalDiscomfort))
    (combinedPairs morningOpts eveningOpts)

/-- The branch of `notify_forecast_summary` (lines 241-248) that decides
whether the "no_round_trip_departure" notification (rather than the
"round_trip_departure" one) is sent: it fires exactly on `refused`. -/
def reportsNoRoundTrip (r : RoundTrip) : Bool :=
  r.refused

end RideWeather

namespace RideWeather

theorem min_penalties_cases (a b c : ℚ) (ha : a = 0 ∨ a = 0.6) (hb : b = 0 ∨ b = 0.6)
    (hc : c = 0 ∨ c = 0.6) :
    min (a + b + c) 1 = 0 ∨ min (a + b + c) 1 = 0.6 ∨ min (a + b + c) 1 = 1 := by
  rcases ha with rfl | rfl <;> rcases hb with rfl | rfl <;> rcases hc with rfl | rfl <;>
    norm_num [min_def]

/-- C7: for every parameter set and all other inputs, if the weather code is
in the banned set then `compute_risk` returns exactly 1.0 (hard veto,
evaluated before any penalty accumulation). -/
theorem computeRisk_banned_veto (p : Params) (windSpeed precip temp : ℚ)
    (weatherCode : ℕ) (windDir : ℚ) (dirMin dirMax : Option ℚ)
    (h : weatherCode ∈ p.bannedWmoCodes) :
    computeRisk p windSpeed precip temp weatherCode windDir dirMin dirMax = 1 := by
  simp [computeRisk, h]

theorem computeRisk_banned_veto_witness :
    (95 ∈ defaultParams.bannedWmoCodes) ∧
      computeRisk defaultParams 10000 (-3) (-20) 95 180 none none = 1 :=
  ⟨by simp [defaultParams, defaultBannedWmoCodes],
   computeRisk_banned_veto defaultParams 10000 (-3) (-20) 95 180 none none
     (by simp [defaultParams, defaultBannedWmoCodes])⟩

/-- C10: for every input, `compute_risk` returns exactly one of the three
values 0.0, 0.6 or 1.0. -/
theorem computeRisk_three_values (p : Params) (windSpeed precip temp : ℚ)
    (weatherCode : ℕ) (windDir : ℚ) (dirMin dirMax : Option ℚ) :
    computeRisk p windSpeed precip temp weatherCode windDir dirMin dirMax = 0 ∨
    computeRisk p windSpeed precip temp weatherCode windDir dirMin dirMax = 0.6 ∨
    computeRisk p windSpeed precip temp weatherCode windDir dirMin dirMax = 1 := by
  unfold computeRisk
  by_cases hban : weatherCode ∈ p.bannedWmoCodes
  · rw [if_pos hban]
    right; right; rfl
  · rw [if_neg hban]
    dsimp only
    exact min_penalties_cases _ _ _ (by split_ifs <;> norm_num)
      (by split_ifs <;> norm_num) (by split_ifs <;> norm_num)

/-- C4 counterexample: the claim says `compute_discomfort` lies in [0, 1]
even for negative precipitation, but at temperature 22, precipitation -1.5,
wind 0, gear 0 it returns -1 < 0. -/
theorem computeDiscomfort_negative_cex :
    computeDiscomfort 22 (-1.5) 0 0 < 0 := by
  norm_num [computeDiscomfort, idealTemp, min_def, max_def]

/-- C4 amended: `compute_risk` always lies in [0, 1]; `compute_discomfort`
lies in [0, 1] whenever precipitation is nonnegative (a negative
precipitation makes the rain penalty negative and can push the result below
0, see the counterexample). -/
theorem scores_in_unit_interval (p : Params) (windSpeed precip temp : ℚ)
    (weatherCode : ℕ) (windDir : ℚ) (dirMin dirMax : Option ℚ) (gear : Fin 3) :
    (0 ≤ computeRisk p windSpeed precip temp weatherCode windDir dirMin dirMax ∧
      computeRisk p windSpeed precip temp weatherCode windDir dirMin dirMax ≤ 1) ∧
    (0 ≤ precip →
      0 ≤ computeDiscomfort temp precip windSpeed gear ∧
        computeDiscomfort temp precip windSpeed gear ≤ 1) := by
  constructor
  · unfold computeRisk
    by_cases hban : weatherCode ∈ p.bannedWmoCodes
    · rw [if_pos hban]
      norm_num
    · rw [if_neg hban]
      dsimp only
      have h1 : (0:ℚ) ≤ (if windSpeed > p.maxAcceptableWindSpeed ∧
          (windDirectionOk dirMin dirMax windDir = false ∨
            windSpeed > p.maxToleratedWindWithGoodDir) then (0.6:ℚ) else 0) := by
        split_ifs <;> norm_num
      have h2 : (0:ℚ) ≤ (if precip > p.maxAcceptableRain then (0.6:ℚ) else 0) := by
        split_ifs <;> norm_num
      have h3 : (0:ℚ) ≤ (if temp < p.minAcceptableTemp then (0.6:ℚ) else 0) := by
        split_ifs <;> norm_num
      exact ⟨le_min (by linarith) (by norm_num), min_le_right _ _⟩
  · intro hprecip
    unfold computeDiscomfort
    dsimp only
    have h1 : 0 ≤ |temp - idealTemp gear| / 20 := by positivity
    have h2 : 0 ≤ min (precip / 1.5) (1:ℚ) := le_min (by positivity) (by norm_num)
    have h3 : (0:ℚ) ≤ max 0 ((windSpeed - 15) / 30) := le_max_left _ _
    exact ⟨le_min (by linarith) (by norm_num), min_le_right _ _⟩

theorem scores_in_unit_interval_witness :
    (0 ≤ computeRisk defaultParams 10000 (-1.5) 30 0 0 none none ∧
      computeRisk defaultParams 10000 (-1.5) 30 0 0 none none ≤ 1) ∧
    ((0:ℚ) ≤ 0 ∧
     (0 ≤ computeDiscomfort 30 0 10000 0 ∧ computeDiscomfort 30 0 10000 0 ≤ 1)) :=
  ⟨(scores_in_unit_interval defaultParams 10000 (-1.5) 30 0 0 none none 0).1,
   le_refl 0,
   (scores_in_unit_interval defaultParams 10000 0 30 0 0 none none 0).2 (le_refl 0)⟩

end RideWeather

namespace RideWeather

/-- C1 counterexample: the claim says a refused candidate is never returned
and an all-refused list yields no selection, but `select_best_departure`
never looks at the `refused` flag: on the single-candidate all-refused list
below it returns that refused candidate. -/
theorem selectBestDeparture_returns_refused_cex :
    selectBestDeparture Mode.evening 0.15 [⟨480, 0.9, 0, true⟩] =
      some ⟨480, 0.9, 0, true⟩ ∧
    (⟨480, 0.9, 0, true⟩ : Candidate).refused = true := by
  refine ⟨?_, rfl⟩
  norm_num [selectBestDeparture, closeCandidates, sortedCandidates, List.insertionSort,
    List.orderedInsert, pyMinBy, combinedScore, List.filter_cons, List.filter_nil, abs_le]

/-- C1 amended: `select_best_departure` performs no refused-filtering at
all: for every non-empty candidate list (and nonnegative tolerance) it
returns some member of the list — even when every member is refused — and
returns no candidate only for the empty list.  The `refused` flag is only
carried along for downstream display and round-trip reporting. -/
theorem selectBestDeparture_no_refused_filter (mode : Mode) (tol : ℚ)
    (cands : List Candidate) (hne : cands ≠ []) (htol : 0 ≤ tol) :
    ∃ r, selectBestDeparture mode tol cands = some r ∧ r ∈ cands := by
  obtain ⟨hd, tl, hs⟩ : ∃ hd tl, sortedCandidates mode cands = hd :: tl := by
    cases h : sortedCandidates mode cands with
    | nil =>
      have hperm := sortedCandidates_perm mode cands
      rw [h] at hperm
      exact absurd hperm.symm.eq_nil hne
    | cons hd tl => exact ⟨hd, tl, rfl⟩
  have hhd : hd ∈ closeCandidates mode tol cands := by
    rw [mem_closeCandidates hs]
    have hmemsorted : hd ∈ sortedCandidates mode cands := by
      rw [hs]
      exact List.mem_cons_self _ _
    exact ⟨mem_sortedCandidates.mp hmemsorted, by simpa using htol⟩
  have hne2 : closeCandidates mode tol cands ≠ [] := by
    intro h0
    rw [h0] at hhd
    exact absurd hhd (List.not_mem_nil _)
  cases mode
  · obtain ⟨m, hm⟩ := pyMaxBy_isSome (fun c => c.departure) hne2
    refine ⟨m, hm, ?_⟩
    exact ((mem_closeCandidates hs).mp (pyMaxBy_spec _ hm).1).1
  · obtain ⟨m, hm⟩ := pyMinBy_isSome (fun c => c.departure) hne2
    refine ⟨m, hm, ?_⟩
    exact ((mem_closeCandidates hs).mp (pyMinBy_spec _ hm).1).1

theorem selectBestDeparture_no_refused_filter_witness :
    ([⟨540, 0.8, 0.5, true⟩, ⟨555, 0.9, 0.6, true⟩] : List Candidate) ≠ [] ∧
    (0:ℚ) ≤ 0.15 ∧
    ∃ r, selectBestDeparture Mode.morning 0.15
        [⟨540, 0.8, 0.5, true⟩, ⟨555, 0.9, 0.6, true⟩] = some r ∧
      r ∈ ([⟨540, 0.8, 0.5, true⟩, ⟨555, 0.9, 0.6, true⟩] : List Candidate) :=
  ⟨by simp, by norm_num,
   selectBestDeparture_no_refused_filter Mode.morning 0.15 _ (by simp) (by norm_num)⟩

end RideWeather

namespace RideWeather

/-- C2 counterexample: in morning mode the sort is reverse (descending), so
with candidates of combined scores 0 and 1 the top of the sorted list is the
score-1 candidate (not the minimal-score one), the band anchors at score 1,
and the returned candidate's combined score is not within tolerance 0.15 of
the minimum combined score 0. -/
theorem morning_sort_reverse_cex :
    selectBestDeparture Mode.morning 0.15
        [⟨0, 0, 0, false⟩, ⟨15, 1, 0, false⟩] = some ⟨15, 1, 0, false⟩ ∧
    sortedCandidates Mode.morning [⟨0, 0, 0, false⟩, ⟨15, 1, 0, false⟩] =
      [⟨15, 1, 0, false⟩, ⟨0, 0, 0, false⟩] ∧
    round3 (combinedScore ⟨0, 0, 0, false⟩) <
      round3 (combinedScore ⟨15, 1, 0, false⟩) ∧
    ¬ (|combinedScore ⟨15, 1, 0, false⟩ - combinedScore ⟨0, 0, 0, false⟩| ≤ 0.15) := by
  refine ⟨?_, ?_, ?_, ?_⟩
  · norm_num [selectBestDeparture, closeCandidates, sortedCandidates, List.insertionSort,
      List.orderedInsert, sortRel, keyLE, sortKey, combinedScore, round3, roundHalfToEven,
      pyMaxBy, List.filter_cons, List.filter_nil, abs_le]
  · norm_num [sortedCandidates, List.insertionSort, List.orderedInsert, sortRel, keyLE,
      sortKey, combinedScore, round3, roundHalfToEven]
  · norm_num [round3, roundHalfToEven, combinedScore]
  · norm_num [combinedScore, abs_le]

/-- C2 amended: the candidate placed first by the sort has the minimal
rounded combined score only in evening mode; in morning mode (reverse sort)
it has the maximal rounded combined score.  In both modes the tolerance band
consists of the candidates whose combined score is within
`risk_score_tolerance` of the first sorted candidate's combined score, and
the returned candidate's combined score is within `risk_score_tolerance` of
that first candidate's score. -/
theorem selectBestDeparture_band_anchor (mode : Mode) (tol : ℚ)
    (cands : List Candidate) (r : Candidate)
    (h : selectBestDeparture mode tol cands = some r) :
    ∃ hd tl, sortedCandidates mode cands = hd :: tl ∧
      (mode = Mode.evening → ∀ c ∈ cands,
        round3 (combinedScore hd) ≤ round3 (combinedScore c)) ∧
      (mode = Mode.morning → ∀ c ∈ cands,
        round3 (combinedScore c) ≤ round3 (combinedScore hd)) ∧
      (∀ c, c ∈ closeCandidates mode tol cands ↔
        c ∈ cands ∧ |combinedScore c - combinedScore hd| ≤ tol) ∧
      |combinedScore r - combinedScore hd| ≤ tol := by
  obtain ⟨hd, tl, hs⟩ := selectBest_some_sorted_ne h
  refine ⟨hd, tl, hs, ?_, ?_, fun c => mem_closeCandidates hs, ?_⟩
  · rintro rfl c hc
    have hrel := sortRel_head hs c hc
    simp only [sortRel, keyLE, sortKey] at hrel
    rcases hrel with hlt | ⟨heq, _⟩
    · exact le_of_lt hlt
    · exact le_of_eq heq
  · rintro rfl c hc
    have hrel := sortRel_head hs c hc
    simp only [sortRel, keyLE, sortKey] at hrel
    rcases hrel with hlt | ⟨heq, _⟩
    · exact le_of_lt hlt
    · exact le_of_eq heq
  · exact ((mem_closeCandidates hs).mp (selectBest_mem_close h)).2

theorem selectBestDeparture_band_anchor_witness :
    selectBestDeparture Mode.evening 0.15
        [⟨0, 0.40, 0, false⟩, ⟨15, 0.42, 0, false⟩] = some ⟨0, 0.40, 0, false⟩ ∧
    (∃ hd tl, sortedCandidates Mode.evening
          [⟨0, 0.40, 0, false⟩, ⟨15, 0.42, 0, false⟩] = hd :: tl ∧
      (Mode.evening = Mode.evening → ∀ c ∈
          ([⟨0, 0.40, 0, false⟩, ⟨15, 0.42, 0, false⟩] : List Candidate),
        round3 (combinedScore hd) ≤ round3 (combinedScore c)) ∧
      (Mode.evening = Mode.morning → ∀ c ∈
          ([⟨0, 0.40, 0, false⟩, ⟨15, 0.42, 0, false⟩] : List Candidate),
        round3 (combinedScore c) ≤ round3 (combinedScore hd)) ∧
      (∀ c, c ∈ closeCandidates Mode.evening 0.15
            [⟨0, 0.40, 0, false⟩, ⟨15, 0.42, 0, false⟩] ↔
        c ∈ ([⟨0, 0.40, 0, false⟩, ⟨15, 0.42, 0, false⟩] : List Candidate) ∧
          |combinedScore c - combinedScore hd| ≤ 0.15) ∧
      |combinedScore ⟨0, 0.40, 0, false⟩ - combinedScore hd| ≤ 0.15) := by
  have h : selectBestDeparture Mode.evening 0.15
      [⟨0, 0.40, 0, false⟩, ⟨15, 0.42, 0, false⟩] = some ⟨0, 0.40, 0, false⟩ := by
    norm_num [selectBestDeparture, closeCandidates, sortedCandidates, List.insertionSort,
      List.orderedInsert, sortRel, keyLE, sortKey, combinedScore, round3, roundHalfToEven,
      pyMinBy, List.filter_cons, List.filter_nil, abs_le]
  exact ⟨h, selectBestDeparture_band_anchor Mode.evening 0.15 _ _ h⟩

/-- C5: within the tolerance band, `select_best_departure` returns the
candidate with the maximum departure timestamp in morning mode and the one
with the minimum departure timestamp in evening mode. -/
theorem selectBestDeparture_band_extreme (mode : Mode) (tol : ℚ)
    (cands : List Candidate) (r : Candidate)
    (h : selectBestDeparture mode tol cands = some r) :
    r ∈ closeCandidates mode tol cands ∧
    (mode = Mode.morning →
      ∀ c ∈ closeCandidates mode tol cands, c.departure ≤ r.departure) ∧
    (mode = Mode.evening →
      ∀ c ∈ closeCandidates mode tol cands, r.departure ≤ c.departure) := by
  refine ⟨selectBest_mem_close h, ?_, ?_⟩
  · rintro rfl
    have h2 : pyMaxBy (fun c => c.departure)
        (closeCandidates Mode.morning tol cands) = some r := h
    exact (pyMaxBy_spec _ h2).2
  · rintro rfl
    have h2 : pyMinBy (fun c => c.departure)
        (closeCandidates Mode.evening tol cands) = some r := h
    exact (pyMinBy_spec _ h2).2

theorem selectBestDeparture_band_extreme_witness :
    selectBestDeparture Mode.morning 0.15
        [⟨0, 0.40, 0, false⟩, ⟨15, 0.42, 0, false⟩] = some ⟨15, 0.42, 0, false⟩ ∧
    (⟨15, 0.42, 0, false⟩ : Candidate) ∈ closeCandidates Mode.morning 0.15
        [⟨0, 0.40, 0, false⟩, ⟨15, 0.42, 0, false⟩] ∧
    (⟨0, 0.40, 0, false⟩ : Candidate) ∈ closeCandidates Mode.morning 0.15
        [⟨0, 0.40, 0, false⟩, ⟨15, 0.42, 0, false⟩] ∧
    (∀ c ∈ closeCandidates Mode.morning 0.15
        [⟨0, 0.40, 0, false⟩, ⟨15, 0.42, 0, false⟩],
      c.departure ≤ (⟨15, 0.42, 0, false⟩ : Candidate).departure) := by
  have h : selectBestDeparture Mode.morning 0.15
      [⟨0, 0.40, 0, false⟩, ⟨15, 0.42, 0, false⟩] = some ⟨15, 0.42, 0, false⟩ := by
    norm_num [selectBestDeparture, closeCandidates, sortedCandidates, List.insertionSort,
      List.orderedInsert, sortRel, keyLE, sortKey, combinedScore, round3, roundHalfToEven,
      pyMaxBy, List.filter_cons, List.filter_nil, abs_le]
  have hband : closeCandidates Mode.morning 0.15
      [⟨0, 0.40, 0, false⟩, ⟨15, 0.42, 0, false⟩] =
      [⟨15, 0.42, 0, false⟩, ⟨0, 0.40, 0, false⟩] := by
    norm_num [closeCandidates, sortedCandidates, List.insertionSort,
      List.orderedInsert, sortRel, keyLE, sortKey, combinedScore, round3, roundHalfToEven,
      List.filter_cons, List.filter_nil, abs_le]
  refine ⟨h, (selectBestDeparture_band_extreme Mode.morning 0.15 _ _ h).1, ?_, ?_⟩
  · rw [hband]
    simp
  · exact (selectBestDeparture_band_extreme Mode.morning 0.15 _ _ h).2.1 rfl

end RideWeather

namespace RideWeather

theorem mem_combinedPairs {morningOpts eveningOpts : List GearOption} {q : RoundTrip}
    (h : q ∈ combinedPairs morningOpts eveningOpts) :
    ∃ m ∈ morningOpts, ∃ e ∈ eveningOpts, e.level = m.level ∧ q = mkRoundTrip m e := by
  rw [combinedPairs, List.mem_filterMap] at h
  obtain ⟨m, hm, hmap⟩ := h
  obtain ⟨e, hfe, hmk⟩ := Option.map_eq_some'.mp hmap
  refine ⟨m, hm, e, List.mem_of_find?_eq_some hfe, ?_, hmk.symm⟩
  have hp := List.find?_some hfe
  simpa using hp

theorem combine_spec {morningOpts eveningOpts : List GearOption} {r : RoundTrip}
    (h : combineForecastsSameGear morningOpts eveningOpts = some r) :
    r ∈ combinedPairs morningOpts eveningOpts ∧
    ∀ q ∈ combinedPairs morningOpts eveningOpts,
      round3 (r.totalRisk + r.totalDiscomfort) ≤
        round3 (q.totalRisk + q.totalDiscomfort) := by
  unfold combineForecastsSameGear at h
  split at h
  · exact absurd h (by simp)
  · exact ⟨(pyMinBy_spec _ h).1, (pyMinBy_spec _ h).2⟩

/-- C6: whenever the combiner returns a pair, that pair comes from a gear
level present in both legs, its totals are the sums of the two legs' risk
and discomfort, its refusal is the disjunction of the two legs' refusals,
and it minimizes `round(total_risk + total_discomfort, 3)` over all gear
levels present in both result sets. -/
theorem combineForecasts_min_total (morningOpts eveningOpts : List GearOption)
    (r : RoundTrip) (h : combineForecastsSameGear morningOpts eveningOpts = some r) :
    (∃ m ∈ morningOpts, ∃ e ∈ eveningOpts, e.level = m.level ∧ r = mkRoundTrip m e) ∧
    r.totalRisk = r.morning.risk + r.evening.risk ∧
    r.totalDiscomfort = r.morning.discomfort + r.evening.discomfort ∧
    r.refused = (r.morning.refused || r.evening.refused) ∧
    ∀ q ∈ combinedPairs morningOpts eveningOpts,
      round3 (r.totalRisk + r.totalDiscomfort) ≤
        round3 (q.totalRisk + q.totalDiscomfort) := by
  obtain ⟨hmem, hmin⟩ := combine_spec h
  obtain ⟨m, hm, e, he, hlev, heq⟩ := mem_combinedPairs hmem
  subst heq
  exact ⟨⟨m, hm, e, he, hlev, rfl⟩, rfl, rfl, rfl, hmin⟩

theorem combineForecasts_min_total_witness :
    combineForecastsSameGear
        [⟨0, [], ⟨480, 0.3, 0, false⟩⟩, ⟨1, [], ⟨480, 0.5, 0, false⟩⟩]
        [⟨0, [], ⟨1020, 0.4, 0, false⟩⟩, ⟨1, [], ⟨1020, 0.1, 0, false⟩⟩] =
      some (mkRoundTrip ⟨1, [], ⟨480, 0.5, 0, false⟩⟩ ⟨1, [], ⟨1020, 0.1, 0, false⟩⟩) ∧
    ((∃ m ∈ ([⟨0, [], ⟨480, 0.3, 0, false⟩⟩, ⟨1, [], ⟨480, 0.5, 0, false⟩⟩] :
          List GearOption),
        ∃ e ∈ ([⟨0, [], ⟨1020, 0.4, 0, false⟩⟩, ⟨1, [], ⟨1020, 0.1, 0, false⟩⟩] :
          List GearOption),
        e.level = m.level ∧
          mkRoundTrip ⟨1, [], ⟨480, 0.5, 0, false⟩⟩ ⟨1, [], ⟨1020, 0.1, 0, false⟩⟩ =
            mkRoundTrip m e) ∧
      (mkRoundTrip ⟨1, [], ⟨480, 0.5, 0, false⟩⟩
          ⟨1, [], ⟨1020, 0.1, 0, false⟩⟩).totalRisk = (0.5 : ℚ) + 0.1 ∧
      (mkRoundTrip ⟨1, [], ⟨480, 0.5, 0, false⟩⟩
          ⟨1, [], ⟨1020, 0.1, 0, false⟩⟩).totalDiscomfort = (0 : ℚ) + 0 ∧
      (mkRoundTrip ⟨1, [], ⟨480, 0.5, 0, false⟩⟩
          ⟨1, [], ⟨1020, 0.1, 0, false⟩⟩).refused = (false || false) ∧
      ∀ q ∈ combinedPairs
          [⟨0, [], ⟨480, 0.3, 0, false⟩⟩, ⟨1, [], ⟨480, 0.5, 0, false⟩⟩]
          [⟨0, [], ⟨1020, 0.4, 0, false⟩⟩, ⟨1, [], ⟨1020, 0.1, 0, false⟩⟩],
        round3 (((0.5 : ℚ) + 0.1) + ((0 : ℚ) + 0)) ≤
          round3 (q.totalRisk + q.totalDiscomfort)) := by
  have hpairs : combinedPairs
      [⟨0, [], ⟨480, 0.3, 0, false⟩⟩, ⟨1, [], ⟨480, 0.5, 0, false⟩⟩]
      [⟨0, [], ⟨1020, 0.4, 0, false⟩⟩, ⟨1, [], ⟨1020, 0.1, 0, false⟩⟩] =
      [mkRoundTrip ⟨0, [], ⟨480, 0.3, 0, false⟩⟩ ⟨0, [], ⟨1020, 0.4, 0, false⟩⟩,
       mkRoundTrip ⟨1, [], ⟨480, 0.5, 0, false⟩⟩ ⟨1, [], ⟨1020, 0.1, 0, false⟩⟩] := rfl
  have h : combineForecastsSameGear
      [⟨0, [], ⟨480, 0.3, 0, false⟩⟩, ⟨1, [], ⟨480, 0.5, 0, false⟩⟩]
      [⟨0, [], ⟨1020, 0.4, 0, false⟩⟩, ⟨1, [], ⟨1020, 0.1, 0, false⟩⟩] =
      some (mkRoundTrip ⟨1, [], ⟨480, 0.5, 0, false⟩⟩ ⟨1, [], ⟨1020, 0.1, 0, false⟩⟩) := by
    rw [combineForecastsSameGear, if_neg (by simp), hpairs]
    norm_num [pyMinBy, mkRoundTrip, round3, roundHalfToEven]
  exact ⟨h, combineForecasts_min_total _ _ _ h⟩

end RideWeather

namespace RideWeather

/-- C3 counterexample: gear level 1 is present in both legs with both bests
non-refused, yet the combiner returns the refused gear-0 pair (its rounded
total 0.61 beats gear 1's 1.2) and `notify_forecast_summary` therefore sends
the "no_round_trip_departure" notification, contradicting the claim that a
viable pair at some gear level forces a viable reported round trip. -/
theorem combine_refused_masks_viable_cex :
    combineForecastsSameGear
        [⟨0, [], ⟨480, 0.61, 0, true⟩⟩, ⟨1, [], ⟨480, 0.5, 0.2, false⟩⟩]
        [⟨0, [], ⟨1020, 0, 0, false⟩⟩, ⟨1, [], ⟨1020, 0.3, 0.2, false⟩⟩] =
      some (mkRoundTrip ⟨0, [], ⟨480, 0.61, 0, true⟩⟩ ⟨0, [], ⟨1020, 0, 0, false⟩⟩) ∧
    reportsNoRoundTrip
      (mkRoundTrip ⟨0, [], ⟨480, 0.61, 0, true⟩⟩ ⟨0, [], ⟨1020, 0, 0, false⟩⟩) = true ∧
    (⟨1, [], ⟨480, 0.5, 0.2, false⟩⟩ : GearOption) ∈
      ([⟨0, [], ⟨480, 0.61, 0, true⟩⟩, ⟨1, [], ⟨480, 0.5, 0.2, false⟩⟩] :
        List GearOption) ∧
    (⟨1, [], ⟨1020, 0.3, 0.2, false⟩⟩ : GearOption) ∈
      ([⟨0, [], ⟨1020, 0, 0, false⟩⟩, ⟨1, [], ⟨1020, 0.3, 0.2, false⟩⟩] :
        List GearOption) ∧
    (⟨1, [], ⟨1020, 0.3, 0.2, false⟩⟩ : GearOption).level =
      (⟨1, [], ⟨480, 0.5, 0.2, false⟩⟩ : GearOption).level ∧
    (⟨1, [], ⟨480, 0.5, 0.2, false⟩⟩ : GearOption).best.refused = false ∧
    (⟨1, [], ⟨1020, 0.3, 0.2, false⟩⟩ : GearOption).best.refused = false := by
  have hpairs : combinedPairs
      [⟨0, [], ⟨480, 0.61, 0, true⟩⟩, ⟨1, [], ⟨480, 0.5, 0.2, false⟩⟩]
      [⟨0, [], ⟨1020, 0, 0, false⟩⟩, ⟨1, [], ⟨1020, 0.3, 0.2, false⟩⟩] =
      [mkRoundTrip ⟨0, [], ⟨480, 0.61, 0, true⟩⟩ ⟨0, [], ⟨1020, 0, 0, false⟩⟩,
       mkRoundTrip ⟨1, [], ⟨480, 0.5, 0.2, false⟩⟩ ⟨1, [], ⟨1020, 0.3, 0.2, false⟩⟩] := rfl
  refine ⟨?_, rfl, by simp, by simp, rfl, rfl, rfl⟩
  rw [combineForecastsSameGear, if_neg (by simp), hpairs]
  norm_num [pyMinBy, mkRoundTrip, round3, roundHalfToEven]

/-- C3 amended: the combiner minimizes the rounded total score without
filtering refused pairs, and "no viable round trip" is reported exactly when
that minimum-total pair is refused — a viable pair at another gear level
does not prevent the notification (see the counterexample). -/
theorem noRoundTrip_iff_min_pair_refused (morningOpts eveningOpts : List GearOption)
    (r : RoundTrip) (h : combineForecastsSameGear morningOpts eveningOpts = some r) :
    (reportsNoRoundTrip r = true ↔ r.refused = true) ∧
    r ∈ combinedPairs morningOpts eveningOpts ∧
    ∀ q ∈ combinedPairs morningOpts eveningOpts,
      round3 (r.totalRisk + r.totalDiscomfort) ≤
        round3 (q.totalRisk + q.totalDiscomfort) :=
  ⟨Iff.rfl, (combine_spec h).1, (combine_spec h).2⟩

theorem noRoundTrip_iff_min_pair_refused_witness :
    combineForecastsSameGear
        [⟨2, [], ⟨480, 0.7, 0, true⟩⟩] [⟨2, [], ⟨1020, 0.2, 0, false⟩⟩] =
      some (mkRoundTrip ⟨2, [], ⟨480, 0.7, 0, true⟩⟩ ⟨2, [], ⟨1020, 0.2, 0, false⟩⟩) ∧
    ((reportsNoRoundTrip
        (mkRoundTrip ⟨2, [], ⟨480, 0.7, 0, true⟩⟩ ⟨2, [], ⟨1020, 0.2, 0, false⟩⟩) = true ↔
      (mkRoundTrip ⟨2, [], ⟨480, 0.7, 0, true⟩⟩
          ⟨2, [], ⟨1020, 0.2, 0, false⟩⟩).refused = true) ∧
     mkRoundTrip ⟨2, [], ⟨480, 0.7, 0, true⟩⟩ ⟨2, [], ⟨1020, 0.2, 0, false⟩⟩ ∈
       combinedPairs [⟨2, [], ⟨480, 0.7, 0, true⟩⟩] [⟨2, [], ⟨1020, 0.2, 0, false⟩⟩] ∧
     ∀ q ∈ combinedPairs [⟨2, [], ⟨480, 0.7, 0, true⟩⟩] [⟨2, [], ⟨1020, 0.2, 0, false⟩⟩],
       round3 ((mkRoundTrip ⟨2, [], ⟨480, 0.7, 0, true⟩⟩
            ⟨2, [], ⟨1020, 0.2, 0, false⟩⟩).totalRisk +
          (mkRoundTrip ⟨2, [], ⟨480, 0.7, 0, true⟩⟩
            ⟨2, [], ⟨1020, 0.2, 0, false⟩⟩).totalDiscomfort) ≤
         round3 (q.totalRisk + q.totalDiscomfort)) := by
  have h : combineForecastsSameGear
      [⟨2, [], ⟨480, 0.7, 0, true⟩⟩] [⟨2, [], ⟨1020, 0.2, 0, false⟩⟩] =
      some (mkRoundTrip ⟨2, [], ⟨480, 0.7, 0, true⟩⟩ ⟨2, [], ⟨1020, 0.2, 0, false⟩⟩) := rfl
  exact ⟨h, noRoundTrip_iff_min_pair_refused _ _ _ h⟩

end RideWeather

namespace RideWeather

theorem lookupObs_eq_none {data : Forecast} {dt : ℤ} {l : List (ℕ × Waypoint)}
    {iw : ℕ × Waypoint} (ha : iw ∈ l)
    (hf : data iw.2.name (dt + 15 * (iw.1 : ℤ)) = none) :
    lookupObs data dt l = none := by
  induction l with
  | nil => exact absurd ha (List.not_mem_nil _)
  | cons x xs ih =>
    rcases List.mem_cons.mp ha with rfl | ha2
    · simp [lookupObs, hf]
    · cases hx : data x.2.name (dt + 15 * (x.1 : ℤ)) <;>
        simp [lookupObs, hx, ih ha2]

/-- C8: if the forecast table lacks the observation of some waypoint at its
projected arrival timestamp `dt + 15 * i`, the departure candidate for `dt`
is entirely omitted from the gear level's candidate list — no default or
substituted score — while the remaining departure timestamps are evaluated
as usual (the candidate list over `pre ++ dt :: post` is exactly the
concatenation of the lists over `pre` and `post`). -/
theorem missing_observation_drops_candidate (p : Params) (coords : List Waypoint)
    (data : Forecast) (gear : Fin 3) (dt : ℤ) (i : ℕ) (wp : Waypoint)
    (hwp : (i, wp) ∈ coords.enum) (hmiss : data wp.name (dt + 15 * (i : ℤ)) = none) :
    buildCandidate p coords data gear dt = none ∧
    ∀ pre post : List ℤ,
      candidatesForGear p coords data gear (pre ++ dt :: post) =
        candidatesForGear p coords data gear pre ++
          candidatesForGear p coords data gear post := by
  have hnone : buildCandidate p coords data gear dt = none := by
    unfold buildCandidate
    rw [lookupObs_eq_none hwp hmiss]
    rfl
  refine ⟨hnone, fun pre post => ?_⟩
  unfold candidatesForGear
  simp [List.filterMap_append, List.filterMap_cons, hnone]

theorem missing_observation_drops_candidate_witness :
    ((0 : ℕ), (⟨"A", none, none⟩ : Waypoint)) ∈ ([⟨"A", none, none⟩] : List Waypoint).enum ∧
    (fun (_ : String) (_ : ℤ) => (none : Option Obs)) "A" (480 + 15 * ((0 : ℕ) : ℤ)) = none ∧
    buildCandidate defaultParams [⟨"A", none, none⟩]
      (fun _ _ => none) 0 480 = none ∧
    candidatesForGear defaultParams [⟨"A", none, none⟩] (fun _ _ => none) 0
        ([465] ++ 480 :: [495]) =
      candidatesForGear defaultParams [⟨"A", none, none⟩] (fun _ _ => none) 0 [465] ++
        candidatesForGear defaultParams [⟨"A", none, none⟩] (fun _ _ => none) 0 [495] := by
  have hwp : ((0 : ℕ), (⟨"A", none, none⟩ : Waypoint)) ∈
      ([⟨"A", none, none⟩] : List Waypoint).enum := by simp [List.enum]
  have hm := missing_observation_drops_candidate defaultParams [⟨"A", none, none⟩]
    (fun _ _ => none) 0 480 0 ⟨"A", none, none⟩ hwp rfl
  exact ⟨hwp, rfl, hm.1, hm.2 [465] [495]⟩

theorem selectBestDeparture_nil (mode : Mode) (tol : ℚ) :
    selectBestDeparture mode tol [] = none := by
  have hclose : closeCandidates mode tol [] = [] := rfl
  cases mode <;> simp [selectBestDeparture, hclose, pyMaxBy, pyMinBy]

/-- C9: when the current time rounded up to the 15-minute grid is past the
window's latest allowed departure, the departure-time enumeration is empty
and the run produces an empty `options` list (the embedding is total, so no
exception can occur). -/
theorem empty_window_yields_no_options (mode : Mode) (p : Params)
    (coords : List Waypoint) (data : Forecast) (gearLevels : List (Fin 3))
    (now anchor delta : ℤ)
    (h : (windowBounds mode (roundUpToGrid now) anchor delta).2 < roundUpToGrid now) :
    departureTimes (windowBounds mode (roundUpToGrid now) anchor delta).1
        (windowBounds mode (roundUpToGrid now) anchor delta).2 = [] ∧
    forecastOptions mode p coords data gearLevels now anchor delta = [] := by
  have hstart : (windowBounds mode (roundUpToGrid now) anchor delta).2 <
      (windowBounds mode (roundUpToGrid now) anchor delta).1 := by
    cases mode <;> simp only [windowBounds] at h ⊢ <;> omega
  have hdt : departureTimes (windowBounds mode (roundUpToGrid now) anchor delta).1
      (windowBounds mode (roundUpToGrid now) anchor delta).2 = [] := by
    unfold departureTimes
    rw [dif_neg (by omega)]
  refine ⟨hdt, ?_⟩
  unfold forecastOptions
  dsimp only
  rw [hdt]
  unfold runOptions
  rw [List.filterMap_eq_nil_iff]
  intro g hg
  simp [candidatesForGear, selectBestDeparture_nil]

theorem empty_window_yields_no_options_witness :
    (windowBounds Mode.morning (roundUpToGrid 600) 585 45).2 < roundUpToGrid 600 ∧
    departureTimes (windowBounds Mode.morning (roundUpToGrid 600) 585 45).1
        (windowBounds Mode.morning (roundUpToGrid 600) 585 45).2 = [] ∧
    forecastOptions Mode.morning defaultParams [⟨"A", none, none⟩] (fun _ _ => none)
      [0, 1, 2] 600 585 45 = [] := by
  have h : (windowBounds Mode.morning (roundUpToGrid 600) 585 45).2 <
      roundUpToGrid 600 := by
    norm_num [windowBounds, roundUpToGrid]
  have hm := empty_window_yields_no_options Mode.morning defaultParams
    [⟨"A", none, none⟩] (fun _ _ => none) [0, 1, 2] 600 585 45 h
  exact ⟨h, hm.1, hm.2⟩

end RideWeather
